import Mathlib

/-!
# provider-kafka: SCRAM user client and User controller

A shallow embedding of `internal/clients/kafka/user/user.go` (package `user`,
embedded in namespace `ProviderKafka.user`) and of
`internal/controller/user/user.go` (embedded in namespace
`ProviderKafka.controller`), followed by the theorems about them.

Conventions of the embedding:

* a Go `error` is a `GoError`; a nil error is `none : Option GoError`;
* a Go `(T, error)` result that is always one of `(nil, err)` / `(v, nil)` is
  an `Except GoError T`;
* Go maps are association lists read with `List.lookup`; indexing a map at a
  missing key gives the zero value of the element type;
* Go `int` is the 64 bit signed integer of the usual targets and `int32` the
  32 bit one; both are embedded in `Int`, and the narrowing conversion
  `int32(x)` is `toInt32`, which keeps the low 32 bits;
* every remote call made through the admin client is recorded in a trace of
  `Call`s, which is returned next to the result.
-/

namespace ProviderKafka

/-! ## Go errors (`errors.New`, `errors.Wrap` of github.com/pkg/errors) -/

/-- A Go error value: either a leaf error carrying a message (`errors.New`, or
an error produced by a collaborator), or an error wrapping a cause with a
message (`errors.Wrap`). -/
inductive GoError where
  | new (msg : String) : GoError
  | wrap (cause : GoError) (msg : String) : GoError
  deriving DecidableEq, Repr

/-- The `Error()` method: the message of a leaf, and `msg + ": " + cause` for a
wrapped error. -/
def GoError.Error : GoError → String
  | .new msg => msg
  | .wrap cause msg => msg ++ ": " ++ cause.Error

/-- The function `strings.HasPrefix(s, p)`: `s` begins with `p`. -/
def strings.HasPrefix (s p : String) : Bool :=
  p.data.isPrefixOf s.data

/-! ## Machine integers -/

/-- The conversion `int32(x)` of a Go `int`: the value of the low 32 bits read
as a signed two's complement number. -/
def toInt32 (x : Int) : Int :=
  (x + 2147483648) % 4294967296 - 2147483648

/-! ## The kadm data types used by the client -/

/-- Modelled from the spec: the type `kadm.ScramMechanism` of the franz-go
library, which is not part of the sources. It is an `int8` enumeration whose
zero value is no mechanism. -/
abbrev ScramMechanism := Int

/-- Modelled from the spec: the constant `kadm.ScramSha256` (SHA-256). -/
def ScramSha256 : ScramMechanism := 1

/-- Modelled from the spec: the constant `kadm.ScramSha512` (SHA-512). -/
def ScramSha512 : ScramMechanism := 2

/-- Modelled from the spec: the canonical string form of a mechanism, the
`String()` method of `kadm.ScramMechanism`, which is not part of the sources:
the two mechanisms print as the names the desired specification uses and any
other value as `UNKNOWN`. -/
def ScramMechanism.String (m : ScramMechanism) : String :=
  if m = ScramSha256 then "SCRAM-SHA-256"
  else if m = ScramSha512 then "SCRAM-SHA-512"
  else "UNKNOWN"

/-- The credential entry `kadm.CredInfo` of a described user. -/
structure CredInfo where
  Mechanism : ScramMechanism
  Iterations : Int
  deriving DecidableEq, Repr

/-- The per-user entry `kadm.DescribedUserSCRAM` of a describe response. The
default field values are the Go zero value. -/
structure DescribedUserSCRAM where
  User : String := ""
  CredInfos : List CredInfo := []
  Err : Option GoError := none
  ErrMessage : String := ""
  deriving DecidableEq, Repr

/-- The per-user entry `kadm.AlteredUserSCRAM` of an alter response. -/
structure AlteredUserSCRAM where
  User : String := ""
  Err : Option GoError := none
  ErrMessage : String := ""
  deriving DecidableEq, Repr

/-- The request item `kadm.DeleteSCRAM`. -/
structure DeleteSCRAM where
  User : String
  Mechanism : ScramMechanism
  deriving DecidableEq, Repr

/-- The request item `kadm.UpsertSCRAM` (the salt fields, never set by this
code, are left out). -/
structure UpsertSCRAM where
  User : String
  Mechanism : ScramMechanism
  Iterations : Int
  Password : String
  deriving DecidableEq, Repr

/-- The map type `kadm.DescribedUserSCRAMs`, keyed by user name. -/
abbrev DescribedUserSCRAMs := List (String × DescribedUserSCRAM)

/-- The map type `kadm.AlteredUserSCRAMs`, keyed by user name. -/
abbrev AlteredUserSCRAMs := List (String × AlteredUserSCRAM)

/-- Go map indexing `ud[name]` on a describe response: the zero value when the
key is absent. -/
def DescribedUserSCRAMs.index (ud : DescribedUserSCRAMs) (name : String) :
    DescribedUserSCRAM :=
  (ud.lookup name).getD {}

/-- A remote call issued through the admin client. -/
inductive Call where
  | describe (name : String) : Call
  | alter (del : List DeleteSCRAM) (upsert : List UpsertSCRAM) : Call
  deriving DecidableEq, Repr

/-- The admin client `*kadm.Client` as seen by this code: what the remote
answers to a describe of one user and to an alter request. -/
structure Client where
  DescribeUserSCRAMs : String → Except GoError DescribedUserSCRAMs
  AlterUserSCRAMs : List DeleteSCRAM → List UpsertSCRAM → Except GoError AlteredUserSCRAMs

/-- The desired parameters `v1alpha1.UserParameters`: the mechanism name and
the iteration count, a Go `int`. -/
structure UserParameters where
  Mechanism : String
  Iterations : Int
  deriving DecidableEq, Repr

namespace user

/-- The struct `User` of the client package. -/
structure User where
  Name : String
  Mechanism : ScramMechanism
  Iterations : Int
  deriving DecidableEq, Repr

def errCannotDescribeUser : String := "cannot describe user"
def errNoCreateResponseForUser : String := "no create response for user"
def errCannotCreateUser : String := "cannot create user"
def errNoDeleteResponseForUser : String := "no delete response for user"
def errCannotDeleteUser : String := "cannot delete user"
def errMultipleCredentialsFound : String := "user has multiple credentials"
def errUserAlreadyExists : String := "user already exists"
def ErrUserDoesNotExist : String := "user does not exist"

/-- The function `Get`: describes `name` and builds a `User` from the single
credential entry. -/
def Get (client : Client) (name : String) : Except GoError User × List Call :=
  match client.DescribeUserSCRAMs name with
  | .error err => (.error (GoError.wrap err errCannotDescribeUser), [Call.describe name])
  | .ok ud =>
    match (ud.index name).Err with
    | some e => (.error (GoError.wrap e ErrUserDoesNotExist), [Call.describe name])
    | none =>
      let u := ud.index name
      match u.CredInfos with
      | [c] => (.ok { Name := name, Mechanism := c.Mechanism, Iterations := c.Iterations },
                [Call.describe name])
      | _ => (.error (GoError.new errMultipleCredentialsFound), [Call.describe name])

/-- The function `Create`: describes the user, and upserts it when the describe
entry carries an error. -/
def Create (client : Client) (user : User) (password : String) :
    Option GoError × List Call :=
  match client.DescribeUserSCRAMs user.Name with
  | .error err => (some (GoError.wrap err errCannotDescribeUser), [Call.describe user.Name])
  | .ok ud =>
    if (ud.index user.Name).Err = none then
      (some (GoError.new errUserAlreadyExists), [Call.describe user.Name])
    else
      let upsert : UpsertSCRAM :=
        { User := user.Name, Mechanism := user.Mechanism,
          Iterations := user.Iterations, Password := password }
      let calls := [Call.describe user.Name, Call.alter [] [upsert]]
      match client.AlterUserSCRAMs [] [upsert] with
      | .error err => (some err, calls)
      | .ok resp =>
        match resp.lookup user.Name with
        | none => (some (GoError.new errNoCreateResponseForUser), calls)
        | some u =>
          match u.Err with
          | some e => (some (GoError.wrap e errCannotCreateUser), calls)
          | none => (none, calls)

/-- The function `Delete`: issues one delete request for the user. -/
def Delete (client : Client) (user : User) : Option GoError × List Call :=
  let delete : DeleteSCRAM := { User := user.Name, Mechanism := user.Mechanism }
  let calls := [Call.alter [delete] []]
  match client.AlterUserSCRAMs [delete] [] with
  | .error err => (some err, calls)
  | .ok resp =>
    match resp.lookup user.Name with
    | none => (some (GoError.new errNoDeleteResponseForUser), calls)
    | some u =>
      match u.Err with
      | some e => (some (GoError.wrap e errCannotDeleteUser), calls)
      | none => (none, calls)

/-- The map `scramMap` of `Generate`, indexed at a key: the zero value for a
key that is not in the map. -/
def scramMap (mechanism : String) : ScramMechanism :=
  if mechanism = "SCRAM-SHA-256" then ScramSha256
  else if mechanism = "SCRAM-SHA-512" then ScramSha512
  else 0

/-- The function `Generate`: converts the desired parameters to a `User`. -/
def Generate (name : String) (params : UserParameters) : User :=
  { Name := name
    Mechanism := scramMap params.Mechanism
    Iterations := toInt32 params.Iterations }

/-- The function `IsUpToDate`: the desired parameters agree with the observed
user on mechanism and iterations. -/
def IsUpToDate (p : UserParameters) (observed : User) : Bool :=
  if p.Mechanism ≠ observed.Mechanism.String then false
  else if p.Iterations ≠ observed.Iterations then false
  else true

end user

namespace controller

def errNotUser : String := "managed resource is not a User custom resource"
def errTrackPCUsage : String := "cannot track ProviderConfig usage"
def errGetPC : String := "cannot get ProviderConfig"
def errGetCreds : String := "cannot get credentials"
def errGetUser : String := "cannot get user spec from user client"
def errGeneratePassword : String := "cannot generate password"
def errNewClient : String := "cannot create new Kafka client"
def errUpdateNotSupported : String := "updates are not supported"

/-- The constant `v1.ResourceCredentialsSecretPasswordKey` of crossplane-runtime,
the fixed key of the password in the connection details. -/
def ResourceCredentialsSecretPasswordKey : String := "password"

/-- The custom resource `v1alpha1.User`, reduced to what the controller reads:
its external name (`meta.GetExternalName`), its provider config reference
(a pointer, possibly nil, to a reference with a name) and its desired
parameters `Spec.ForProvider`. -/
structure UserCR where
  ExternalName : String
  ProviderConfigReference : Option String
  ForProvider : UserParameters
  deriving DecidableEq, Repr

/-- A managed resource `resource.Managed`: a `*v1alpha1.User` or a resource of
some other type, identified here by its kind. -/
inductive Managed where
  | User (cr : UserCR) : Managed
  | other (kind : String) : Managed
  deriving DecidableEq, Repr

/-- The type assertion `mg.(*v1alpha1.User)`. -/
def Managed.asUser : Managed → Option UserCR
  | .User cr => some cr
  | .other _ => none

/-- The type `managed.ConnectionDetails`, a map from key to bytes. -/
abbrev ConnectionDetails := List (String × ByteArray)

/-- The struct `managed.ExternalObservation`; the defaults are the zero value. -/
structure ExternalObservation where
  ResourceExists : Bool := false
  ResourceUpToDate : Bool := false
  ResourceLateInitialized : Bool := false
  ConnectionDetails : ConnectionDetails := []

/-- The struct `managed.ExternalCreation`; the default is the zero value. -/
structure ExternalCreation where
  ConnectionDetails : ConnectionDetails := []

/-- The struct `managed.ExternalUpdate`; the default is the zero value. -/
structure ExternalUpdate where
  ConnectionDetails : ConnectionDetails := []

/-- The struct `external`, the client handed out by `Connect`; its field is a
pointer to the admin client, possibly nil. -/
structure external where
  kafkaClient : Option Client

/-- How a call ends: it returns a value, or it panics on a nil pointer. -/
inductive Outcome (α : Type) where
  | returned (a : α) : Outcome α
  | panicked : Outcome α

/-- The mutable part of the struct `connectDisconnector`: the cached admin
client, nil when none is held. -/
structure connectDisconnector where
  cachedClient : Option Client

/-- The collaborators of `Connect`: the usage tracker, the lookup of the
provider config by name (giving its credentials spec), the credential
extractor and the client constructor `newServiceFn`, which returns a client
pointer and an error. -/
structure Collaborators (Creds : Type) where
  Track : Managed → Option GoError
  GetPC : String → Except GoError Creds
  CommonCredentialExtractor : Creds → Except GoError ByteArray
  newServiceFn : ByteArray → Option Client × Option GoError

/-- The method `connectDisconnector.Connect`: the returned client and error (or
the panic on a nil provider config reference), and the connector state after
the call. -/
def Connect {Creds : Type} (env : Collaborators Creds) (c : connectDisconnector)
    (mg : Managed) : Outcome (Option external × Option GoError) × connectDisconnector :=
  match mg.asUser with
  | none => (.returned (none, some (GoError.new errNotUser)), c)
  | some cr =>
    match env.Track mg with
    | some err => (.returned (none, some (GoError.wrap err errTrackPCUsage)), c)
    | none =>
      match cr.ProviderConfigReference with
      | none => (.panicked, c)
      | some pcName =>
        match env.GetPC pcName with
        | .error err => (.returned (none, some (GoError.wrap err errGetPC)), c)
        | .ok cd =>
          match env.CommonCredentialExtractor cd with
          | .error err => (.returned (none, some (GoError.wrap err errGetCreds)), c)
          | .ok data =>
            match env.newServiceFn data with
            | (_, some err) => (.returned (none, some (GoError.wrap err errNewClient)), c)
            | (svc, none) =>
              (.returned (some { kafkaClient := svc }, none), { cachedClient := svc })

/-- The method `connectDisconnector.Disconnect`: the returned error, the
connector state after the call, and the clients on which `Close` was called,
in order. -/
def Disconnect (c : connectDisconnector) :
    Option GoError × connectDisconnector × List Client :=
  match c.cachedClient with
  | some k => (none, { cachedClient := none }, [k])
  | none => (none, { cachedClient := none }, [])

/-- What a call of `Observe` yields: the observation, the error, whether the
resource status was set to the available condition, and the remote calls. -/
structure ObserveResult where
  obs : ExternalObservation
  err : Option GoError
  available : Bool
  calls : List Call

/-- The method `external.Observe`. The admin client is only used by `user.Get`,
whose first step calls a method of it, which panics on a nil client. -/
def Observe (c : external) (mg : Managed) : Outcome ObserveResult :=
  match mg.asUser with
  | none => .returned
      { obs := {}, err := some (GoError.new errNotUser), available := false, calls := [] }
  | some cr =>
    match c.kafkaClient with
    | none => .panicked
    | some k =>
      match user.Get k cr.ExternalName with
      | (.error err, calls) =>
        if strings.HasPrefix err.Error user.ErrUserDoesNotExist then
          .returned
            { obs := { ResourceExists := false }, err := none, available := false,
              calls := calls }
        else
          .returned
            { obs := {}, err := some (GoError.wrap err errGetUser), available := false,
              calls := calls }
      | (.ok u, calls) =>
        .returned
          { obs := { ResourceExists := true
                     ResourceUpToDate := user.IsUpToDate cr.ForProvider u
                     ResourceLateInitialized := false }
            err := none, available := true, calls := calls }

/-- What a call of the controller's `Create` yields. -/
structure CreateResult where
  creation : ExternalCreation
  err : Option GoError
  calls : List Call

/-- The method `external.Create`; `generated` is what `password.Generate()`
returns. The admin client is only used by `user.Create`, whose first step
calls a method of it, which panics on a nil client. -/
def Create (c : external) (mg : Managed) (generated : Except GoError String) :
    Outcome CreateResult :=
  match mg.asUser with
  | none => .returned { creation := {}, err := some (GoError.new errNotUser), calls := [] }
  | some cr =>
    match generated with
    | .error err => .returned
        { creation := {}, err := some (GoError.wrap err errGeneratePassword), calls := [] }
    | .ok password =>
      match c.kafkaClient with
      | none => .panicked
      | some k =>
        match user.Create k (user.Generate cr.ExternalName cr.ForProvider) password with
        | (some err, calls) => .returned { creation := {}, err := some err, calls := calls }
        | (none, calls) => .returned
            { creation :=
                { ConnectionDetails :=
                    [(ResourceCredentialsSecretPasswordKey, password.toUTF8)] }
              err := none, calls := calls }

/-- What a call of the controller's `Update` yields. -/
structure UpdateResult where
  update : ExternalUpdate
  err : Option GoError
  calls : List Call

/-- The method `external.Update`. -/
def Update (_c : external) (_mg : Managed) : UpdateResult :=
  { update := {}, err := some (GoError.new errUpdateNotSupported), calls := [] }

/-- The method `external.Delete`. -/
def Delete (c : external) (mg : Managed) : Outcome (Option GoError × List Call) :=
  match mg.asUser with
  | none => .returned (some (GoError.new errNotUser), [])
  | some cr =>
    match c.kafkaClient with
    | none => .panicked
    | some k => .returned (user.Delete k (user.Generate cr.ExternalName cr.ForProvider))

end controller

/-! ## Example remotes

Concrete admin clients and resources, used to instantiate the theorems below. -/

namespace example_remote

/-- A remote that holds no account: every described name comes back with an
error entry, a delete is answered with an error entry and an upsert is
acknowledged. -/
def empty : Client where
  DescribeUserSCRAMs := fun n =>
    .ok [(n, { User := n, Err := some (GoError.new "RESOURCE_NOT_FOUND") })]
  AlterUserSCRAMs := fun del ups =>
    .ok (del.map (fun d =>
           (d.User, { User := d.User, Err := some (GoError.new "RESOURCE_NOT_FOUND") })) ++
         ups.map (fun u => (u.User, { User := u.User })))

/-- A remote in which every described name holds the single credential with
mechanism `m` and iteration count `i`; deletes and upserts are acknowledged. -/
def storing (m : ScramMechanism) (i : Int) : Client where
  DescribeUserSCRAMs := fun n =>
    .ok [(n, { User := n, CredInfos := [{ Mechanism := m, Iterations := i }] })]
  AlterUserSCRAMs := fun del ups =>
    .ok (del.map (fun d => (d.User, { User := d.User })) ++
         ups.map (fun u => (u.User, { User := u.User })))

/-- A remote in which every described name holds two credentials, one per
mechanism. -/
def twoCredentials : Client where
  DescribeUserSCRAMs := fun n =>
    .ok [(n, { User := n
               CredInfos := [{ Mechanism := ScramSha256, Iterations := 4096 },
                             { Mechanism := ScramSha512, Iterations := 4096 }] })]
  AlterUserSCRAMs := fun del ups =>
    .ok (del.map (fun d => (d.User, { User := d.User })) ++
         ups.map (fun u => (u.User, { User := u.User })))

/-- A remote that cannot be reached: every call fails with a transport error
whose message is `msg`. -/
def unreachable (msg : String) : Client where
  DescribeUserSCRAMs := fun _ => .error (GoError.new msg)
  AlterUserSCRAMs := fun _ _ => .error (GoError.new msg)

/-- The User resource of the end-to-end scenario. -/
def alice : controller.UserCR where
  ExternalName := "alice"
  ProviderConfigReference := some "default"
  ForProvider := { Mechanism := "SCRAM-SHA-512", Iterations := 4096 }

/-- A User resource whose desired iteration count does not fit 32 bits. -/
def aliceLarge : controller.UserCR where
  ExternalName := "alice"
  ProviderConfigReference := some "default"
  ForProvider := { Mechanism := "SCRAM-SHA-512", Iterations := 4294971392 }

end example_remote

/-! ## Auxiliary facts -/

/-- The conversion `int32(x)` is the identity on the 32 bit signed range. -/
theorem toInt32_eq_self (x : Int) (h1 : -2147483648 ≤ x) (h2 : x < 2147483648) :
    toInt32 x = x := by
  unfold toInt32
  omega

/-- The canonical string of the mechanism that `scramMap` gives a supported
name is that name. -/
theorem String_scramMap (m : String) (h : m = "SCRAM-SHA-256" ∨ m = "SCRAM-SHA-512") :
    ScramMechanism.String (user.scramMap m) = m := by
  rcases h with h | h <;> subst h <;> decide

/-- The message of the describe failure never begins with the marker of a
missing user, whatever the cause says. -/
theorem HasPrefix_cannotDescribe (m : String) :
    strings.HasPrefix (user.errCannotDescribeUser ++ ": " ++ m) user.ErrUserDoesNotExist
      = false := by
  simp [strings.HasPrefix, user.errCannotDescribeUser, user.ErrUserDoesNotExist,
    String.data_append, List.isPrefixOf]

/-- The message of the missing-user failure begins with its marker. -/
theorem HasPrefix_doesNotExist (m : String) :
    strings.HasPrefix (user.ErrUserDoesNotExist ++ ": " ++ m) user.ErrUserDoesNotExist
      = true := by
  simp [strings.HasPrefix, String.data_append]

/-- The message of the credential-count failure does not begin with the marker
of a missing user. -/
theorem HasPrefix_multipleCredentials :
    strings.HasPrefix user.errMultipleCredentialsFound user.ErrUserDoesNotExist = false := by
  decide

/-- The three ways `Get` ends, by the describe outcome. -/
theorem Get_cases (k : Client) (name : String) :
    (∃ cause, k.DescribeUserSCRAMs name = .error cause ∧
        user.Get k name
          = (.error (GoError.wrap cause user.errCannotDescribeUser), [Call.describe name])) ∨
    (∃ ud e, k.DescribeUserSCRAMs name = .ok ud ∧ (ud.index name).Err = some e ∧
        user.Get k name
          = (.error (GoError.wrap e user.ErrUserDoesNotExist), [Call.describe name])) ∨
    (∃ ud c, k.DescribeUserSCRAMs name = .ok ud ∧ (ud.index name).Err = none ∧
        (ud.index name).CredInfos = [c] ∧
        user.Get k name
          = (.ok { Name := name, Mechanism := c.Mechanism, Iterations := c.Iterations },
             [Call.describe name])) ∨
    (∃ ud, k.DescribeUserSCRAMs name = .ok ud ∧ (ud.index name).Err = none ∧
        (ud.index name).CredInfos.length ≠ 1 ∧
        user.Get k name
          = (.error (GoError.new user.errMultipleCredentialsFound), [Call.describe name])) := by
  unfold user.Get
  cases hd : k.DescribeUserSCRAMs name with
  | error cause => exact Or.inl ⟨cause, rfl, rfl⟩
  | ok ud =>
    cases he : (ud.index name).Err with
    | some e => exact Or.inr (Or.inl ⟨ud, e, rfl, he, by simp [he]⟩)
    | none =>
      cases hc : (ud.index name).CredInfos with
      | nil => exact Or.inr (Or.inr (Or.inr ⟨ud, rfl, he, by simp [hc], by simp [he, hc]⟩))
      | cons c t =>
        cases t with
        | nil => exact Or.inr (Or.inr (Or.inl ⟨ud, c, rfl, he, hc, by simp [he, hc]⟩))
        | cons c2 t2 =>
          exact Or.inr (Or.inr (Or.inr ⟨ud, rfl, he, by simp [hc], by simp [he, hc]⟩))

/-- The four ways `Delete` ends, by the alter outcome. -/
theorem Delete_cases (k : Client) (u : user.User) :
    (∃ err, k.AlterUserSCRAMs [{ User := u.Name, Mechanism := u.Mechanism }] [] = .error err ∧
        user.Delete k u
          = (some err, [Call.alter [{ User := u.Name, Mechanism := u.Mechanism }] []])) ∨
    (∃ resp, k.AlterUserSCRAMs [{ User := u.Name, Mechanism := u.Mechanism }] [] = .ok resp ∧
        resp.lookup u.Name = none ∧
        user.Delete k u
          = (some (GoError.new user.errNoDeleteResponseForUser),
             [Call.alter [{ User := u.Name, Mechanism := u.Mechanism }] []])) ∨
    (∃ resp a cause,
        k.AlterUserSCRAMs [{ User := u.Name, Mechanism := u.Mechanism }] [] = .ok resp ∧
        resp.lookup u.Name = some a ∧ a.Err = some cause ∧
        user.Delete k u
          = (some (GoError.wrap cause user.errCannotDeleteUser),
             [Call.alter [{ User := u.Name, Mechanism := u.Mechanism }] []])) ∨
    (∃ resp a, k.AlterUserSCRAMs [{ User := u.Name, Mechanism := u.Mechanism }] [] = .ok resp ∧
        resp.lookup u.Name = some a ∧ a.Err = none ∧
        user.Delete k u
          = (none, [Call.alter [{ User := u.Name, Mechanism := u.Mechanism }] []])) := by
  cases ha : k.AlterUserSCRAMs [{ User := u.Name, Mechanism := u.Mechanism }] [] with
  | error err => exact Or.inl ⟨err, rfl, by simp [user.Delete, ha]⟩
  | ok resp =>
    cases hl : resp.lookup u.Name with
    | none => exact Or.inr (Or.inl ⟨resp, rfl, hl, by simp [user.Delete, ha, hl]⟩)
    | some a =>
      cases he : a.Err with
      | some cause =>
        exact Or.inr (Or.inr (Or.inl ⟨resp, a, cause, rfl, hl, he,
          by simp [user.Delete, ha, hl, he]⟩))
      | none =>
        exact Or.inr (Or.inr (Or.inr ⟨resp, a, rfl, hl, he, by simp [user.Delete, ha, hl, he]⟩))

/-- The result of `Observe` when `Get` fails with the missing-user error. -/
theorem Observe_of_doesNotExist (k : Client) (cr : controller.UserCR) (e : GoError)
    (calls : List Call)
    (h : user.Get k cr.ExternalName
      = (.error (GoError.wrap e user.ErrUserDoesNotExist), calls)) :
    controller.Observe { kafkaClient := some k } (.User cr)
      = .returned { obs := { ResourceExists := false }, err := none, available := false,
                    calls := calls } := by
  simp [controller.Observe, controller.Managed.asUser, h, GoError.Error,
    HasPrefix_doesNotExist]

/-- The result of `Observe` when `Get` fails with the describe error. -/
theorem Observe_of_cannotDescribe (k : Client) (cr : controller.UserCR) (cause : GoError)
    (calls : List Call)
    (h : user.Get k cr.ExternalName
      = (.error (GoError.wrap cause user.errCannotDescribeUser), calls)) :
    controller.Observe { kafkaClient := some k } (.User cr)
      = .returned
          { obs := {}
            err := some (GoError.wrap (GoError.wrap cause user.errCannotDescribeUser)
              controller.errGetUser)
            available := false, calls := calls } := by
  simp [controller.Observe, controller.Managed.asUser, h, GoError.Error,
    HasPrefix_cannotDescribe]

/-- The result of `Observe` when `Get` fails with the credential-count error. -/
theorem Observe_of_multipleCredentials (k : Client) (cr : controller.UserCR)
    (calls : List Call)
    (h : user.Get k cr.ExternalName
      = (.error (GoError.new user.errMultipleCredentialsFound), calls)) :
    controller.Observe { kafkaClient := some k } (.User cr)
      = .returned
          { obs := {}
            err := some (GoError.wrap (GoError.new user.errMultipleCredentialsFound)
              controller.errGetUser)
            available := false, calls := calls } := by
  simp [controller.Observe, controller.Managed.asUser, h, GoError.Error,
    HasPrefix_multipleCredentials]

/-- The result of `Observe` when `Get` returns a user. -/
theorem Observe_of_ok (k : Client) (cr : controller.UserCR) (u : user.User)
    (calls : List Call) (h : user.Get k cr.ExternalName = (.ok u, calls)) :
    controller.Observe { kafkaClient := some k } (.User cr)
      = .returned
          { obs := { ResourceExists := true
                     ResourceUpToDate := user.IsUpToDate cr.ForProvider u
                     ResourceLateInitialized := false }
            err := none, available := true, calls := calls } := by
  simp [controller.Observe, controller.Managed.asUser, h]

/-- Every alter request that `Create` issues holds no delete and the single
upsert built from the user and the password. -/
theorem Create_alter_shape (k : Client) (u : user.User) (pw : String)
    (del : List DeleteSCRAM) (ups : List UpsertSCRAM)
    (h : Call.alter del ups ∈ (user.Create k u pw).2) :
    del = [] ∧
    ups = [{ User := u.Name, Mechanism := u.Mechanism, Iterations := u.Iterations,
             Password := pw }] := by
  unfold user.Create at h
  cases hd : k.DescribeUserSCRAMs u.Name with
  | error cause => simp [hd] at h
  | ok ud =>
    cases he : (ud.index u.Name).Err with
    | none => simp [hd, he] at h
    | some e =>
      cases ha : k.AlterUserSCRAMs []
          [{ User := u.Name, Mechanism := u.Mechanism, Iterations := u.Iterations,
             Password := pw }] with
      | error err => simpa [hd, he, ha] using h
      | ok resp =>
        cases hl : resp.lookup u.Name with
        | none => simpa [hd, he, ha, hl] using h
        | some a => cases hae : a.Err <;> simpa [hd, he, ha, hl, hae] using h

/-- When `Create` succeeds its calls are the describe followed by the alter
request with the single upsert. -/
theorem Create_ok_calls (k : Client) (u : user.User) (pw : String)
    (h : (user.Create k u pw).1 = none) :
    (user.Create k u pw).2
      = [Call.describe u.Name,
         Call.alter [] [{ User := u.Name, Mechanism := u.Mechanism,
                          Iterations := u.Iterations, Password := pw }]] := by
  unfold user.Create at h ⊢
  cases hd : k.DescribeUserSCRAMs u.Name with
  | error cause => simp [hd] at h
  | ok ud =>
    cases he : (ud.index u.Name).Err with
    | none => simp [hd, he] at h
    | some e =>
      cases ha : k.AlterUserSCRAMs []
          [{ User := u.Name, Mechanism := u.Mechanism, Iterations := u.Iterations,
             Password := pw }] with
      | error err => simp [he, ha]
      | ok resp =>
        cases hl : resp.lookup u.Name with
        | none => simp [he, ha, hl]
        | some a => cases hae : a.Err <;> simp [he, ha, hl, hae]

/-- The controller's `Create`, once a password is generated, returns what the
client's `Create` gives: its error and calls, and the password entry on
success. -/
theorem controller_Create_of_password (k : Client) (cr : controller.UserCR) (pw : String) :
    controller.Create { kafkaClient := some k } (.User cr) (.ok pw)
      = .returned
          { creation :=
              match (user.Create k (user.Generate cr.ExternalName cr.ForProvider) pw).1 with
              | some _ => {}
              | none => { ConnectionDetails :=
                  [(controller.ResourceCredentialsSecretPasswordKey, pw.toUTF8)] }
            err := (user.Create k (user.Generate cr.ExternalName cr.ForProvider) pw).1
            calls := (user.Create k (user.Generate cr.ExternalName cr.ForProvider) pw).2 } := by
  unfold controller.Create
  simp only [controller.Managed.asUser]
  rcases hc : user.Create k (user.Generate cr.ExternalName cr.ForProvider) pw with ⟨e, calls⟩
  cases e <;> rfl

/-- A failing `Connect` leaves the connector state as it was: either the state
is unchanged or `Connect` returned a client with a nil error. -/
theorem Connect_state {Creds : Type} (env : controller.Collaborators Creds)
    (c : controller.connectDisconnector) (mg : controller.Managed) :
    (controller.Connect env c mg).2 = c ∨
    ∃ cl, (controller.Connect env c mg).1 = .returned (cl, none) := by
  unfold controller.Connect
  repeat' split
  all_goals first
    | exact Or.inl rfl
    | exact Or.inr ⟨_, rfl⟩

/-! ## The client package: `IsUpToDate` and `Generate` -/

/-- C1: for every desired parameter record `d` and observed user `o`,
`IsUpToDate d o` is true if and only if `d.Mechanism` equals the canonical
string form of `o.Mechanism` and `d.Iterations` equals `o.Iterations`; the name
of `o` is never compared, so replacing it leaves the verdict unchanged. -/
theorem IsUpToDate_iff_mechanism_and_iterations (d : UserParameters) (o : user.User) :
    (user.IsUpToDate d o = true ↔
      (d.Mechanism = o.Mechanism.String ∧ d.Iterations = o.Iterations)) ∧
    (∀ n : String, user.IsUpToDate d { o with Name := n } = user.IsUpToDate d o) := by
  refine ⟨?_, fun n => rfl⟩
  unfold user.IsUpToDate
  by_cases h1 : d.Mechanism = o.Mechanism.String <;>
    by_cases h2 : d.Iterations = o.Iterations <;> simp [h1, h2]

/-- C10, as stated, fails: for the desired iteration count `4294971392`, which
is `2 ^ 32 + 4096` (a value of the Go type `int`), `Generate` returns a user
whose `Iterations` is `4096`, not the desired count, because of the conversion
to `int32`. -/
theorem Generate_iterations_not_preserved :
    (user.Generate "validComparison" { Mechanism := "SCRAM-SHA-512", Iterations := 4294971392 }
      ).Iterations = 4096 ∧
    (user.Generate "validComparison" { Mechanism := "SCRAM-SHA-512", Iterations := 4294971392 }
      ).Iterations ≠ 4294971392 := by
  decide

/-- C10, amended: for every name and every desired parameter record `p` whose
iteration count lies in the 32 bit signed range, `Generate name p` returns a
user whose `Name` is `name`, whose `Mechanism` is the SCRAM enum value
corresponding to `p.Mechanism` (SHA-256 for "SCRAM-SHA-256", SHA-512 for
"SCRAM-SHA-512"), and whose `Iterations` equals `p.Iterations`. -/
theorem Generate_fields (name : String) (p : UserParameters)
    (hlo : -2147483648 ≤ p.Iterations) (hhi : p.Iterations < 2147483648) :
    (user.Generate name p).Name = name ∧
    (p.Mechanism = "SCRAM-SHA-256" → (user.Generate name p).Mechanism = ScramSha256) ∧
    (p.Mechanism = "SCRAM-SHA-512" → (user.Generate name p).Mechanism = ScramSha512) ∧
    (user.Generate name p).Iterations = p.Iterations := by
  refine ⟨rfl, ?_, ?_, toInt32_eq_self _ hlo hhi⟩
  · intro h
    simp [user.Generate, user.scramMap, h]
  · intro h
    simp [user.Generate, user.scramMap, h]

/-- The amended C10 at the input of `TestGenerate`. -/
theorem Generate_fields_witness :
    (user.Generate "validComparison" { Mechanism := "SCRAM-SHA-512", Iterations := 4096 }).Name
      = "validComparison" ∧
    (user.Generate "validComparison" { Mechanism := "SCRAM-SHA-512", Iterations := 4096 }
      ).Mechanism = ScramSha512 ∧
    (user.Generate "validComparison" { Mechanism := "SCRAM-SHA-512", Iterations := 4096 }
      ).Iterations = 4096 :=
  have h := Generate_fields "validComparison"
    { Mechanism := "SCRAM-SHA-512", Iterations := 4096 } (by decide) (by decide)
  ⟨h.1, h.2.2.1 rfl, h.2.2.2⟩

/-! ## The client package: `Get`, `Create`, `Delete` -/

/-- C3: for every name and every describe response, `Get` returns a user only
when the entry of the name carries no error and has exactly one credential
entry, and then the user has the requested name and that entry's mechanism and
iteration count (and with such an entry it does return that user); when the
entry carries no error and has zero or more than one credential entries, `Get`
returns no user and fails with the multiple-credentials error. -/
theorem Get_user_only_from_single_credential (k : Client) (name : String) :
    (∀ u, (user.Get k name).1 = .ok u →
      ∃ ud c, k.DescribeUserSCRAMs name = .ok ud ∧ (ud.index name).Err = none ∧
        (ud.index name).CredInfos = [c] ∧
        u = { Name := name, Mechanism := c.Mechanism, Iterations := c.Iterations }) ∧
    (∀ ud c, k.DescribeUserSCRAMs name = .ok ud → (ud.index name).Err = none →
      (ud.index name).CredInfos = [c] →
      user.Get k name
        = (.ok { Name := name, Mechanism := c.Mechanism, Iterations := c.Iterations },
           [Call.describe name])) ∧
    (∀ ud, k.DescribeUserSCRAMs name = .ok ud → (ud.index name).Err = none →
      (ud.index name).CredInfos.length ≠ 1 →
      user.Get k name
        = (.error (GoError.new user.errMultipleCredentialsFound), [Call.describe name])) := by
  refine ⟨?_, ?_, ?_⟩
  · intro u hu
    rcases Get_cases k name with ⟨cause, _, hg⟩ | ⟨ud, e, _, _, hg⟩ | ⟨ud, c, hd, he, hc, hg⟩ |
      ⟨ud, _, _, _, hg⟩
    · rw [hg] at hu; cases hu
    · rw [hg] at hu; cases hu
    · rw [hg] at hu
      cases hu
      exact ⟨ud, c, hd, he, hc, rfl⟩
    · rw [hg] at hu; cases hu
  · intro ud c hd he hc
    unfold user.Get
    simp [hd, he, hc]
  · intro ud hd he hlen
    rcases Get_cases k name with ⟨cause, hd2, _⟩ | ⟨ud2, e, hd2, he2, _⟩ |
      ⟨ud2, c, hd2, _, hc2, _⟩ | ⟨ud2, _, _, _, hg⟩
    · rw [hd] at hd2; cases hd2
    · rw [hd] at hd2; cases hd2; rw [he] at he2; cases he2
    · rw [hd] at hd2; cases hd2; rw [hc2] at hlen; exact absurd rfl hlen
    · exact hg

/-- C4: for every user and password, when the describe issued by `Create`
reports the account as existing (the entry of the name carries no error),
`Create` fails with the user-already-exists error and its only remote call is
that describe, so no alter request reaches the remote; an alter request is
issued exactly when the describe call succeeded and the entry of the name
carries an error, and it then holds no delete and the single upsert built from
the user and the password. -/
theorem Create_existing_user_issues_no_upsert (k : Client) (u : user.User) (pw : String) :
    (∀ ud, k.DescribeUserSCRAMs u.Name = .ok ud → (ud.index u.Name).Err = none →
      user.Create k u pw
        = (some (GoError.new user.errUserAlreadyExists), [Call.describe u.Name])) ∧
    ((∃ del ups, Call.alter del ups ∈ (user.Create k u pw).2) ↔
      ∃ ud e, k.DescribeUserSCRAMs u.Name = .ok ud ∧ (ud.index u.Name).Err = some e) ∧
    (∀ del ups, Call.alter del ups ∈ (user.Create k u pw).2 →
      del = [] ∧
      ups = [{ User := u.Name, Mechanism := u.Mechanism, Iterations := u.Iterations,
               Password := pw }]) := by
  unfold user.Create
  cases hd : k.DescribeUserSCRAMs u.Name with
  | error cause => simp
  | ok ud =>
    cases he : (ud.index u.Name).Err with
    | none => simp [he]
    | some e =>
      cases ha : k.AlterUserSCRAMs []
          [{ User := u.Name, Mechanism := u.Mechanism, Iterations := u.Iterations,
             Password := pw }] with
      | error err => simp [he, ha]
      | ok resp =>
        cases hl : resp.lookup u.Name with
        | none => simp [he, ha, hl]
        | some a => cases hae : a.Err <;> simp [he, ha, hl, hae]

/-- C8: for every user and every alter response, `Delete` issues exactly one
remote call, an alter request holding the single delete of the user's name and
mechanism and no upsert; it succeeds if and only if the call returned no
transport error and the response holds an entry for the name that carries no
error; an absent entry fails with the no-delete-response error, an
error-bearing entry fails with the cannot-delete-user error wrapping the
cause, and a transport error is returned as it is. -/
theorem Delete_single_request_and_result (k : Client) (u : user.User) :
    (user.Delete k u).2 = [Call.alter [{ User := u.Name, Mechanism := u.Mechanism }] []] ∧
    ((user.Delete k u).1 = none ↔
      ∃ resp a, k.AlterUserSCRAMs [{ User := u.Name, Mechanism := u.Mechanism }] [] = .ok resp ∧
        resp.lookup u.Name = some a ∧ a.Err = none) ∧
    (∀ resp, k.AlterUserSCRAMs [{ User := u.Name, Mechanism := u.Mechanism }] [] = .ok resp →
      resp.lookup u.Name = none →
      (user.Delete k u).1 = some (GoError.new user.errNoDeleteResponseForUser)) ∧
    (∀ resp a cause,
      k.AlterUserSCRAMs [{ User := u.Name, Mechanism := u.Mechanism }] [] = .ok resp →
      resp.lookup u.Name = some a → a.Err = some cause →
      (user.Delete k u).1 = some (GoError.wrap cause user.errCannotDeleteUser)) ∧
    (∀ err, k.AlterUserSCRAMs [{ User := u.Name, Mechanism := u.Mechanism }] [] = .error err →
      (user.Delete k u).1 = some err) := by
  rcases Delete_cases k u with ⟨err, ha, hg⟩ | ⟨resp, ha, hl, hg⟩ |
    ⟨resp, a, cause, ha, hl, he, hg⟩ | ⟨resp, a, ha, hl, he, hg⟩
  · refine ⟨by rw [hg], ?_, ?_, ?_, ?_⟩
    · rw [hg]
      constructor
      · intro h; cases h
      · rintro ⟨resp, a, ha2, _, _⟩; rw [ha] at ha2; cases ha2
    · intro resp ha2; rw [ha] at ha2; cases ha2
    · intro resp a cause ha2; rw [ha] at ha2; cases ha2
    · intro err2 ha2; rw [ha] at ha2; cases ha2; rw [hg]
  · refine ⟨by rw [hg], ?_, ?_, ?_, ?_⟩
    · rw [hg]
      constructor
      · intro h; cases h
      · rintro ⟨resp2, a, ha2, hl2, _⟩
        rw [ha] at ha2; cases ha2; rw [hl] at hl2; cases hl2
    · intro resp2 _ _; rw [hg]
    · intro resp2 a cause ha2 hl2
      rw [ha] at ha2; cases ha2; rw [hl] at hl2; cases hl2
    · intro err2 ha2; rw [ha] at ha2; cases ha2
  · refine ⟨by rw [hg], ?_, ?_, ?_, ?_⟩
    · rw [hg]
      constructor
      · intro h; cases h
      · rintro ⟨resp2, a2, ha2, hl2, he2⟩
        rw [ha] at ha2; cases ha2; rw [hl] at hl2; cases hl2
        rw [he] at he2; cases he2
    · intro resp2 ha2 hl2
      rw [ha] at ha2; cases ha2; rw [hl] at hl2; cases hl2
    · intro resp2 a2 cause2 ha2 hl2 he2
      rw [ha] at ha2; cases ha2; rw [hl] at hl2; cases hl2
      rw [he] at he2; cases he2
      rw [hg]
    · intro err2 ha2; rw [ha] at ha2; cases ha2
  · refine ⟨by rw [hg], ?_, ?_, ?_, ?_⟩
    · rw [hg]
      exact ⟨fun _ => ⟨resp, a, ha, hl, he⟩, fun _ => rfl⟩
    · intro resp2 ha2 hl2
      rw [ha] at ha2; cases ha2; rw [hl] at hl2; cases hl2
    · intro resp2 a2 cause2 ha2 hl2 he2
      rw [ha] at ha2; cases ha2; rw [hl] at hl2; cases hl2
      rw [he] at he2; cases he2
    · intro err2 ha2; rw [ha] at ha2; cases ha2

/-! ## The controller: `Observe` -/

/-- C2: for every User resource and every describe outcome, `Observe` (on a
connected client) returns, after the single describe call, and
* it returns `ResourceExists = false` with a nil error exactly when `Get`
  fails with the user-does-not-exist error, which is exactly when the
  describe call succeeded and the entry of the name carries an error;
* for a describe transport failure, whatever the cause and its message, and
  for an entry without error whose credential count is not one, it returns a
  non-nil error wrapping the failure of `Get` (next to the zero observation),
  so it is no report of absence;
* when `Get` returns a user it returns a nil error, `ResourceExists = true` and
  `ResourceUpToDate` equal to `IsUpToDate` of the desired parameters and that
  user. -/
theorem Observe_swallows_only_missing_user (k : Client) (cr : controller.UserCR) :
    ∃ r, controller.Observe { kafkaClient := some k } (.User cr) = .returned r ∧
      r.calls = [Call.describe cr.ExternalName] ∧
      ((r.obs.ResourceExists = false ∧ r.err = none) ↔
        ∃ e, (user.Get k cr.ExternalName).1
          = .error (GoError.wrap e user.ErrUserDoesNotExist)) ∧
      ((r.obs.ResourceExists = false ∧ r.err = none) ↔
        ∃ ud e, k.DescribeUserSCRAMs cr.ExternalName = .ok ud ∧
          (ud.index cr.ExternalName).Err = some e) ∧
      (∀ cause, k.DescribeUserSCRAMs cr.ExternalName = .error cause →
        r.err = some (GoError.wrap (GoError.wrap cause user.errCannotDescribeUser)
          controller.errGetUser) ∧
        ¬ (r.obs.ResourceExists = false ∧ r.err = none)) ∧
      (∀ ud, k.DescribeUserSCRAMs cr.ExternalName = .ok ud →
        (ud.index cr.ExternalName).Err = none →
        (ud.index cr.ExternalName).CredInfos.length ≠ 1 →
        r.err = some (GoError.wrap (GoError.new user.errMultipleCredentialsFound)
          controller.errGetUser) ∧
        ¬ (r.obs.ResourceExists = false ∧ r.err = none)) ∧
      (∀ u, (user.Get k cr.ExternalName).1 = .ok u →
        r.err = none ∧ r.obs.ResourceExists = true ∧
        r.obs.ResourceUpToDate = user.IsUpToDate cr.ForProvider u) := by
  rcases Get_cases k cr.ExternalName with ⟨cause, hd, hg⟩ | ⟨ud, e, hd, he, hg⟩ |
    ⟨ud, c, hd, he, hc, hg⟩ | ⟨ud, hd, he, hc, hg⟩
  · refine ⟨_, Observe_of_cannotDescribe k cr cause _ hg, rfl, ?_, ?_, ?_, ?_, ?_⟩
    · constructor
      · rintro ⟨_, h⟩; cases h
      · rintro ⟨e, h⟩
        rw [hg] at h
        simp [user.errCannotDescribeUser, user.ErrUserDoesNotExist] at h
    · constructor
      · rintro ⟨_, h⟩; cases h
      · rintro ⟨ud, e, h, _⟩; rw [hd] at h; cases h
    · intro cause2 h; rw [hd] at h; cases h
      exact ⟨rfl, fun h2 => nomatch h2.2⟩
    · intro ud h; rw [hd] at h; cases h
    · intro u h; rw [hg] at h; cases h
  · refine ⟨_, Observe_of_doesNotExist k cr e _ hg, rfl, ?_, ?_, ?_, ?_, ?_⟩
    · exact ⟨fun _ => ⟨e, by rw [hg]⟩, fun _ => ⟨rfl, rfl⟩⟩
    · exact ⟨fun _ => ⟨ud, e, hd, he⟩, fun _ => ⟨rfl, rfl⟩⟩
    · intro cause2 h; rw [hd] at h; cases h
    · intro ud2 h he2; rw [hd] at h; cases h; rw [he] at he2; cases he2
    · intro u h; rw [hg] at h; cases h
  · refine ⟨_, Observe_of_ok k cr _ _ hg, rfl, ?_, ?_, ?_, ?_, ?_⟩
    · constructor
      · rintro ⟨h, _⟩; cases h
      · rintro ⟨e, h⟩; rw [hg] at h; cases h
    · constructor
      · rintro ⟨h, _⟩; cases h
      · rintro ⟨ud2, e, h, he2⟩; rw [hd] at h; cases h; rw [he] at he2; cases he2
    · intro cause2 h; rw [hd] at h; cases h
    · intro ud2 h _ hlen; rw [hd] at h; cases h; rw [hc] at hlen; exact absurd rfl hlen
    · intro u h; rw [hg] at h; cases h; exact ⟨rfl, rfl, rfl⟩
  · refine ⟨_, Observe_of_multipleCredentials k cr _ hg, rfl, ?_, ?_, ?_, ?_, ?_⟩
    · constructor
      · rintro ⟨_, h⟩; cases h
      · rintro ⟨e, h⟩; rw [hg] at h; cases h
    · constructor
      · rintro ⟨_, h⟩; cases h
      · rintro ⟨ud2, e, h, he2⟩; rw [hd] at h; cases h; rw [he] at he2; cases he2
    · intro cause2 h; rw [hd] at h; cases h
    · intro ud2 _ _ _
      exact ⟨rfl, fun h2 => nomatch h2.2⟩
    · intro u h; rw [hg] at h; cases h

/-! ## The controller: `Create`, `Update` and the round trip -/

/-- C9: for every User resource, the controller's `Create`: if password
generation fails it returns the cannot-generate-password error wrapping the
cause, with empty connection details and without any remote call (whatever
the client); if `user.Create` fails it returns that error with empty
connection details; and if `user.Create` succeeds it returns a nil error and
connection details holding exactly one entry, keyed by the fixed password key
`password`, whose value is the bytes of the generated password, the same
password that the upsert sent by `user.Create` carries. -/
theorem controller_Create_connection_details (k : Client) (cr : controller.UserCR) :
    (∀ (c : controller.external) (cause : GoError),
      ∃ r, controller.Create c (.User cr) (.error cause) = .returned r ∧
        r.err = some (GoError.wrap cause controller.errGeneratePassword) ∧
        r.creation.ConnectionDetails = [] ∧ r.calls = []) ∧
    (∀ (pw : String) (e : GoError),
      (user.Create k (user.Generate cr.ExternalName cr.ForProvider) pw).1 = some e →
      ∃ r, controller.Create { kafkaClient := some k } (.User cr) (.ok pw) = .returned r ∧
        r.err = some e ∧ r.creation.ConnectionDetails = []) ∧
    (∀ pw : String,
      (user.Create k (user.Generate cr.ExternalName cr.ForProvider) pw).1 = none →
      ∃ r, controller.Create { kafkaClient := some k } (.User cr) (.ok pw) = .returned r ∧
        r.err = none ∧
        r.creation.ConnectionDetails = [("password", pw.toUTF8)] ∧
        r.calls = [Call.describe cr.ExternalName,
          Call.alter []
            [{ User := cr.ExternalName
               Mechanism := (user.Generate cr.ExternalName cr.ForProvider).Mechanism
               Iterations := (user.Generate cr.ExternalName cr.ForProvider).Iterations
               Password := pw }]]) := by
  refine ⟨fun c cause => ⟨_, rfl, rfl, rfl, rfl⟩, ?_, ?_⟩
  · intro pw e h
    refine ⟨_, controller_Create_of_password k cr pw, h, ?_⟩
    simp only [h]
  · intro pw h
    refine ⟨_, controller_Create_of_password k cr pw, h, ?_, ?_⟩
    · simp only [h]
      rfl
    · exact Create_ok_calls k _ pw h

/-- C6: for every managed resource, of any type, and every client, nil or
not, the controller's `Update` returns the updates-are-not-supported error
and an empty `ExternalUpdate`, and issues no remote call. -/
theorem Update_always_not_supported (c : controller.external) (mg : controller.Managed) :
    (controller.Update c mg).err = some (GoError.new "updates are not supported") ∧
    (controller.Update c mg).update.ConnectionDetails = [] ∧
    (controller.Update c mg).calls = [] :=
  ⟨rfl, rfl, rfl⟩

/-- C5, as stated, fails: for the desired spec named `alice` with the
supported mechanism "SCRAM-SHA-512" and the positive iteration count
`4294971392`, which is `2 ^ 32 + 4096`, the user that `Generate` builds (and so
the upsert of `Create`) carries `4096` iterations, `IsUpToDate` of the spec and
that user is false, and `Observe` of
a remote storing exactly that mechanism and iteration count yields
`ResourceExists = true` with `ResourceUpToDate = false`. -/
theorem Create_then_Observe_large_iterations_not_upToDate :
    (0 : Int) < example_remote.aliceLarge.ForProvider.Iterations ∧
    (user.Generate "alice" example_remote.aliceLarge.ForProvider).Iterations = 4096 ∧
    user.IsUpToDate example_remote.aliceLarge.ForProvider
      { Name := "alice"
        Mechanism := (user.Generate "alice" example_remote.aliceLarge.ForProvider).Mechanism
        Iterations := (user.Generate "alice" example_remote.aliceLarge.ForProvider).Iterations }
      = false ∧
    ∃ r, controller.Observe
        { kafkaClient := some (example_remote.storing
            (user.Generate "alice" example_remote.aliceLarge.ForProvider).Mechanism
            (user.Generate "alice" example_remote.aliceLarge.ForProvider).Iterations) }
        (.User example_remote.aliceLarge) = .returned r ∧
      r.err = none ∧ r.obs.ResourceExists = true ∧ r.obs.ResourceUpToDate = false := by
  refine ⟨by decide, by decide, by decide, _, Observe_of_ok _ _ _ _ rfl, rfl, rfl, ?_⟩
  decide

/-- C5, amended: Create-then-Observe round trip for every desired spec with
name X, a supported mechanism ("SCRAM-SHA-256" or "SCRAM-SHA-512") and a
positive iteration count below `2147483648`: if the controller's `Create`
succeeds and the remote then stores, as the single credential of X, exactly
the mechanism and iterations carried by the upsert that `Create` sent, a
following `Observe` of X yields `ResourceExists = true` and
`ResourceUpToDate = true` with a nil error, and `IsUpToDate` of the spec and
the user made of X and the mechanism and iterations of `Generate` is true. -/
theorem Create_then_Observe_upToDate (cr : controller.UserCR) (pw : String)
    (k0 k1 : Client) (r0 : controller.CreateResult) (up : UpsertSCRAM)
    (ud : DescribedUserSCRAMs)
    (hM : cr.ForProvider.Mechanism = "SCRAM-SHA-256" ∨
      cr.ForProvider.Mechanism = "SCRAM-SHA-512")
    (hpos : 0 < cr.ForProvider.Iterations)
    (hmax : cr.ForProvider.Iterations < 2147483648)
    (hcreate : controller.Create { kafkaClient := some k0 } (.User cr) (.ok pw) = .returned r0)
    (hok : r0.err = none)
    (hup : Call.alter [] [up] ∈ r0.calls)
    (hd : k1.DescribeUserSCRAMs cr.ExternalName = .ok ud)
    (herr : (ud.index cr.ExternalName).Err = none)
    (hcred : (ud.index cr.ExternalName).CredInfos
      = [{ Mechanism := up.Mechanism, Iterations := up.Iterations }]) :
    controller.Observe { kafkaClient := some k1 } (.User cr)
      = .returned
          { obs := { ResourceExists := true, ResourceUpToDate := true,
                     ResourceLateInitialized := false }
            err := none, available := true, calls := [Call.describe cr.ExternalName] } ∧
    user.IsUpToDate cr.ForProvider
      { Name := cr.ExternalName
        Mechanism := (user.Generate cr.ExternalName cr.ForProvider).Mechanism
        Iterations := (user.Generate cr.ExternalName cr.ForProvider).Iterations } = true := by
  have hup2 : up = { User := cr.ExternalName
                     Mechanism := (user.Generate cr.ExternalName cr.ForProvider).Mechanism
                     Iterations := (user.Generate cr.ExternalName cr.ForProvider).Iterations
                     Password := pw } := by
    rw [controller_Create_of_password] at hcreate
    cases hcreate
    have h := (Create_alter_shape k0 _ pw [] [up] hup).2
    simpa using h
  have hutd : user.IsUpToDate cr.ForProvider
      { Name := cr.ExternalName
        Mechanism := (user.Generate cr.ExternalName cr.ForProvider).Mechanism
        Iterations := (user.Generate cr.ExternalName cr.ForProvider).Iterations } = true := by
    have h1 := String_scramMap cr.ForProvider.Mechanism hM
    have h2 := toInt32_eq_self cr.ForProvider.Iterations (by omega) hmax
    simp [user.IsUpToDate, user.Generate, h1, h2]
  refine ⟨?_, hutd⟩
  have hg : user.Get k1 cr.ExternalName
      = (.ok { Name := cr.ExternalName
               Mechanism := (user.Generate cr.ExternalName cr.ForProvider).Mechanism
               Iterations := (user.Generate cr.ExternalName cr.ForProvider).Iterations },
         [Call.describe cr.ExternalName]) := by
    unfold user.Get
    simp [hd, herr, hcred, hup2]
  rw [Observe_of_ok k1 cr _ _ hg, hutd]

/-- The amended C5 in the end-to-end scenario: `alice` with "SCRAM-SHA-512" and
4096 iterations is created on the empty remote, and observed on the remote
that stores what the upsert carried. -/
theorem Create_then_Observe_upToDate_witness :
    controller.Observe
        { kafkaClient := some (example_remote.storing ScramSha512 4096) }
        (.User example_remote.alice)
      = .returned
          { obs := { ResourceExists := true, ResourceUpToDate := true,
                     ResourceLateInitialized := false }
            err := none, available := true, calls := [Call.describe "alice"] } ∧
    user.IsUpToDate example_remote.alice.ForProvider
      { Name := "alice"
        Mechanism := (user.Generate "alice" example_remote.alice.ForProvider).Mechanism
        Iterations := (user.Generate "alice" example_remote.alice.ForProvider).Iterations }
      = true :=
  Create_then_Observe_upToDate example_remote.alice "s3cret"
    example_remote.empty (example_remote.storing ScramSha512 4096)
    { creation := { ConnectionDetails := [("password", "s3cret".toUTF8)] }
      err := none
      calls := [Call.describe "alice",
        Call.alter [] [{ User := "alice", Mechanism := ScramSha512, Iterations := 4096,
                         Password := "s3cret" }]] }
    { User := "alice", Mechanism := ScramSha512, Iterations := 4096, Password := "s3cret" }
    [("alice", { User := "alice",
                 CredInfos := [{ Mechanism := ScramSha512, Iterations := 4096 }] })]
    (Or.inr rfl) (by decide) (by decide) rfl rfl (by decide) rfl rfl rfl

/-! ## The connector: `Connect` and `Disconnect` -/

/-- C7: `Disconnect` is idempotent on the connector state. For every connector
state it returns no error and leaves the cached client empty; it closes the
cached client exactly once if one was held and closes nothing if none was
held; a second `Disconnect` right after it returns no error, closes nothing
and leaves the state as the first one left it. A `Connect` that fails (it
panics, or returns an error) leaves the cached client as it was, so from a
fresh connector, which holds none, a following `Disconnect` closes nothing. -/
theorem Disconnect_idempotent (c : controller.connectDisconnector) :
    (controller.Disconnect c).1 = none ∧
    (controller.Disconnect c).2.1.cachedClient = none ∧
    (∀ k, c.cachedClient = some k → (controller.Disconnect c).2.2 = [k]) ∧
    (c.cachedClient = none → (controller.Disconnect c).2.2 = []) ∧
    controller.Disconnect (controller.Disconnect c).2.1
      = (none, (controller.Disconnect c).2.1, []) ∧
    (∀ (Creds : Type) (env : controller.Collaborators Creds) (mg : controller.Managed),
      (∀ cl, (controller.Connect env c mg).1 ≠ .returned (cl, none)) →
      (controller.Connect env c mg).2 = c) ∧
    (∀ (Creds : Type) (env : controller.Collaborators Creds) (mg : controller.Managed),
      (∀ cl, (controller.Connect env { cachedClient := none } mg).1 ≠ .returned (cl, none)) →
      (controller.Connect env { cachedClient := none } mg).2.cachedClient = none ∧
      (controller.Disconnect (controller.Connect env { cachedClient := none } mg).2).2.2
        = []) := by
  have hfail : ∀ (c0 : controller.connectDisconnector) (Creds : Type)
      (env : controller.Collaborators Creds) (mg : controller.Managed),
      (∀ cl, (controller.Connect env c0 mg).1 ≠ .returned (cl, none)) →
      (controller.Connect env c0 mg).2 = c0 := by
    intro c0 Creds env mg h
    rcases Connect_state env c0 mg with h2 | ⟨cl, h2⟩
    · exact h2
    · exact absurd h2 (h cl)
  refine ⟨?_, ?_, ?_, ?_, ?_, hfail c, ?_⟩
  · unfold controller.Disconnect; cases c.cachedClient <;> rfl
  · unfold controller.Disconnect; cases c.cachedClient <;> rfl
  · intro k hk; unfold controller.Disconnect; rw [hk]
  · intro hk; unfold controller.Disconnect; rw [hk]
  · unfold controller.Disconnect; cases c.cachedClient <;> rfl
  · intro Creds env mg h
    rw [hfail _ Creds env mg h]
    exact ⟨rfl, rfl⟩

/-! ## Scenarios

The operations evaluated on the example remotes. -/

/-- On the empty remote `Observe` of `alice` reports that the account does not
exist, with a nil error. -/
theorem scenario_Observe_empty :
    controller.Observe { kafkaClient := some example_remote.empty }
        (.User example_remote.alice)
      = .returned { obs := { ResourceExists := false }, err := none, available := false,
                    calls := [Call.describe "alice"] } := by
  rfl

/-- On the empty remote the controller's `Create` of `alice` describes, upserts
and returns the generated password as the only connection detail. -/
theorem scenario_Create_empty :
    controller.Create { kafkaClient := some example_remote.empty }
        (.User example_remote.alice) (.ok "s3cret")
      = .returned
          { creation := { ConnectionDetails := [("password", "s3cret".toUTF8)] }
            err := none
            calls := [Call.describe "alice",
              Call.alter [] [{ User := "alice", Mechanism := ScramSha512, Iterations := 4096,
                               Password := "s3cret" }]] } := by
  rfl

/-- A second `Create` of an account the remote already holds fails with the
user-already-exists error after the describe alone. -/
theorem scenario_Create_duplicate :
    user.Create (example_remote.storing ScramSha512 4096)
        { Name := "u1", Mechanism := ScramSha512, Iterations := 4096 } "password2"
      = (some (GoError.new "user already exists"), [Call.describe "u1"]) := by
  rfl

/-- A `Delete` of an account the remote does not hold fails with the
cannot-delete-user error wrapping the cause. -/
theorem scenario_Delete_ghost :
    user.Delete example_remote.empty
        { Name := "ghost", Mechanism := ScramSha512, Iterations := 4096 }
      = (some (GoError.wrap (GoError.new "RESOURCE_NOT_FOUND") "cannot delete user"),
         [Call.alter [{ User := "ghost", Mechanism := ScramSha512 }] []]) := by
  rfl

/-- An account with two credential entries makes `Observe` fail with the
multiple-credentials error. -/
theorem scenario_Observe_twoCredentials :
    controller.Observe { kafkaClient := some example_remote.twoCredentials }
        (.User example_remote.alice)
      = .returned
          { obs := {}
            err := some (GoError.wrap (GoError.new "user has multiple credentials")
              "cannot get user spec from user client")
            available := false, calls := [Call.describe "alice"] } := by
  rfl

/-- A transport failure is an error of `Observe` even when the message of its
cause is the marker of a missing user. -/
theorem scenario_Observe_unreachable :
    controller.Observe
        { kafkaClient := some (example_remote.unreachable "user does not exist") }
        (.User example_remote.alice)
      = .returned
          { obs := {}
            err := some (GoError.wrap
              (GoError.wrap (GoError.new "user does not exist") "cannot describe user")
              "cannot get user spec from user client")
            available := false, calls := [Call.describe "alice"] } := by
  rfl

/-- A resource that is not a User makes `Connect` fail, whatever the
collaborators do, and leaves the fresh connector without a client. -/
theorem scenario_Connect_fails (env : controller.Collaborators Unit) :
    controller.Connect env { cachedClient := none } (.other "Topic")
      = (.returned (none, some (GoError.new "managed resource is not a User custom resource")),
         { cachedClient := none }) := by
  rfl

end ProviderKafka
